import Mathlib

/-!
Verification of BatchMe (`src/barcode_generator.py`), a batch UPC barcode
generator.  The domain logic embedded here is the `UPCBarcodeGenerator`
class (`clean_upc`, `generate_barcode`, `generate_batch`) and `cli_mode`.

Modelling conventions:
* Python strings are Lean `String`s; `str.isdigit` on a character is
  `Char.isDigit`, `str.strip()` is `pyStrip` (drop leading and trailing
  whitespace).
* The external rendering library (`python-barcode`) is not part of this
  repository.  `generate_barcode` therefore returns the `RenderRequest` it
  hands to the library (barcode class, cleaned digits, output path) or the
  `ValueError` message it raises before ever reaching the library; the
  library itself is an abstract function `Render` consumed at the call
  site (`generate_barcode_with`), mirroring the injectable-collaborator
  interface `render(digits, variant) → artifact path`.
* `raise`/`try`/`except` becomes `Except String`; `sys.exit(code)` in
  `cli_mode` becomes an explicit returned exit code.
* Console `print` calls are pure observations of the `generated_files`
  and `errors` lists and are not modelled separately; `generate_batch_run`
  returns both lists, `generate_batch` returns `generated_files` exactly
  as the Python function does.
-/

namespace BatchMe

/-- `UPCBarcodeGenerator.__init__(self, output_dir="barcodes")`: the only
configuration state is the output directory. -/
structure UPCBarcodeGenerator where
  output_dir : String
  deriving Repr, DecidableEq

/-- The two barcode classes the code can request from the library:
`barcode.get_barcode_class('upca')` and `barcode.get_barcode_class('upce')`. -/
inductive BarcodeClass where
  | upca
  | upce
  deriving Repr, DecidableEq

/-- The data `generate_barcode` hands to the external renderer: the chosen
barcode class, the cleaned digit string passed to its constructor, the
`filename` local, and `str(output_path)` passed to `save`. -/
structure RenderRequest where
  barcode_class : BarcodeClass
  cleaned_upc : String
  filename : String
  output_path : String
  deriving Repr, DecidableEq

/-- The abstract external renderer: takes the request, returns the full
path reported by `save`, or fails (RenderFailure, treated opaquely). -/
def Render : Type := RenderRequest → Except String String

/-- Python `str.strip()` with no argument: remove leading and trailing
whitespace characters. -/
def pyStrip (s : String) : String :=
  String.mk
    (((s.toList.dropWhile (fun c => c.isWhitespace)).reverse.dropWhile
        (fun c => c.isWhitespace)).reverse)

/-- `clean_upc`: `''.join(c for c in upc if c.isdigit())`. -/
def clean_upc (upc : String) : String :=
  String.mk (upc.toList.filter (fun c => c.isDigit))

/-- Python `f"{index:04d}"`: decimal digits of `index`, left-padded with
zeros to at least four characters. -/
def format04d (index : Nat) : String :=
  let s := toString index
  if s.length < 4 then String.mk (List.replicate (4 - s.length) '0') ++ s else s

/-- The message of the `ValueError` raised on an invalid digit count:
`f"Invalid UPC length: {len(cleaned_upc)} digits. Must be 8 or 12 digits."`. -/
def invalidLengthMsg (n : Nat) : String :=
  "Invalid UPC length: " ++ toString n ++ " digits. Must be 8 or 12 digits."

/-- `generate_barcode(self, upc, index)` up to the delegation point: clean,
validate the length (`len(cleaned_upc) not in [8, 12]` raises), choose
`'upca'` for 12 digits else `'upce'`, build
`filename = f"{index:04d}_{cleaned_upc}"` and
`output_path = self.output_dir / filename`.  The result is the request
passed to the external library (see `generate_barcode_with`). -/
def generate_barcode (gen : UPCBarcodeGenerator) (upc : String) (index : Nat) :
    Except String RenderRequest :=
  let cleaned_upc := clean_upc upc
  if cleaned_upc.length ∉ ([8, 12] : List Nat) then
    Except.error (invalidLengthMsg cleaned_upc.length)
  else
    let barcode_class :=
      if cleaned_upc.length = 12 then BarcodeClass.upca else BarcodeClass.upce
    let filename := format04d index ++ "_" ++ cleaned_upc
    let output_path := gen.output_dir ++ "/" ++ filename
    Except.ok { barcode_class := barcode_class, cleaned_upc := cleaned_upc,
                filename := filename, output_path := output_path }

/-- The full `generate_barcode` including the delegated
`barcode_class(cleaned_upc, writer=ImageWriter()).save(str(output_path))`
call: validation/classification followed by the external renderer. -/
def generate_barcode_with (render : Render) (gen : UPCBarcodeGenerator)
    (upc : String) (index : Nat) : Except String String :=
  (generate_barcode gen upc index).bind render

/-- The error string appended to `errors` in `generate_batch`:
`f"✗ Error generating barcode for '{upc.strip()}': {str(e)}"`. -/
def batchErrorMsg (upc_stripped e : String) : String :=
  "✗ Error generating barcode for '" ++ upc_stripped ++ "': " ++ e

/-- The loop of `generate_batch`: `for index, upc in enumerate(upc_list,
start=1)`, skipping lines with `not upc.strip()`, calling
`generate_barcode(upc.strip(), index)` on the rest, accumulating
`generated_files` and `errors`.  `index` is the 1-based position in the
original list when started at 1. -/
def generate_batch_loop (render : Render) (gen : UPCBarcodeGenerator) :
    List String → Nat → List String × List String
  | [], _ => ([], [])
  | upc :: rest, index =>
    if pyStrip upc = "" then
      generate_batch_loop render gen rest (index + 1)
    else
      match generate_barcode_with render gen (pyStrip upc) index with
      | Except.ok file_path =>
        let r := generate_batch_loop render gen rest (index + 1)
        (file_path :: r.1, r.2)
      | Except.error e =>
        let r := generate_batch_loop render gen rest (index + 1)
        (r.1, batchErrorMsg (pyStrip upc) e :: r.2)

/-- `generate_batch` observed with both of its accumulators:
`(generated_files, errors)`. -/
def generate_batch_run (render : Render) (gen : UPCBarcodeGenerator)
    (upc_list : List String) : List String × List String :=
  generate_batch_loop render gen upc_list 1

/-- `generate_batch(self, upc_list)`: returns `generated_files`. -/
def generate_batch (render : Render) (gen : UPCBarcodeGenerator)
    (upc_list : List String) : List String :=
  (generate_batch_run render gen upc_list).1

/-- `cli_mode()`: reads stdin lines (each `line.strip()`ped), exits with
status 1 before any processing if the list is empty, otherwise runs
`UPCBarcodeGenerator().generate_batch(upc_list)` and completes normally
(status 0).  Result: `(exit status, generated_files)`. -/
def cli_mode (render : Render) (stdin_lines : List String) :
    Nat × List String :=
  let upc_list := stdin_lines.map (fun line => pyStrip line)
  if upc_list.isEmpty then
    (1, [])
  else
    (0, generate_batch render { output_dir := "barcodes" } upc_list)

/-- A canonical always-succeeding renderer, used to instantiate theorems:
`ImageWriter.save` writes `output_path + ".png"` and returns that path. -/
def render_save_png : Render :=
  fun req => Except.ok (req.output_path ++ ".png")

/-- Observation of the loop of `generate_batch`: the `(index, file_path)`
pairs of exactly those items whose `generate_barcode` call succeeds, in
processing order.  Used to state order preservation of the result list. -/
def success_items (render : Render) (gen : UPCBarcodeGenerator) :
    List String → Nat → List (Nat × String)
  | [], _ => []
  | upc :: rest, index =>
    if pyStrip upc = "" then
      success_items render gen rest (index + 1)
    else
      match generate_barcode_with render gen (pyStrip upc) index with
      | Except.ok file_path =>
        (index, file_path) :: success_items render gen rest (index + 1)
      | Except.error _ =>
        success_items render gen rest (index + 1)

/-! ## Helper lemmas -/

/-- Cleaning twice filters twice with the same predicate. -/
lemma clean_upc_filter_idem (s : String) :
    clean_upc (clean_upc s) = clean_upc s := by
  simp [clean_upc, List.filter_filter]

/-- If every non-blank line fails, the loop accumulates no files. -/
lemma batch_loop_all_fail (render : Render) (gen : UPCBarcodeGenerator) :
    ∀ (upc_list : List String) (index : Nat),
      (∀ upc ∈ upc_list, ∀ i : Nat, pyStrip upc ≠ "" →
          ∃ e, generate_barcode_with render gen (pyStrip upc) i = Except.error e) →
      (generate_batch_loop render gen upc_list index).1 = []
  | [], _, _ => rfl
  | upc :: rest, index, h => by
    have htail := batch_loop_all_fail render gen rest (index + 1)
      (fun u hu => h u (List.mem_cons_of_mem _ hu))
    by_cases hb : pyStrip upc = ""
    · simp [generate_batch_loop, hb, htail]
    · obtain ⟨e, he⟩ := h upc (List.mem_cons_self _ _) index hb
      simp [generate_batch_loop, hb, he, htail]

/-- Every index recorded by `success_items` is at least the start index. -/
lemma success_items_index_ge (render : Render) (gen : UPCBarcodeGenerator) :
    ∀ (upc_list : List String) (index : Nat),
      ∀ p ∈ success_items render gen upc_list index, index ≤ p.1
  | [], _, p, hp => absurd hp (List.not_mem_nil p)
  | upc :: rest, index, p, hp => by
    have htail : ∀ q ∈ success_items render gen rest (index + 1), index ≤ q.1 :=
      fun q hq =>
        Nat.le_of_succ_le (success_items_index_ge render gen rest (index + 1) q hq)
    rw [success_items] at hp
    by_cases hb : pyStrip upc = ""
    · rw [if_pos hb] at hp
      exact htail p hp
    · rw [if_neg hb] at hp
      cases hr : generate_barcode_with render gen (pyStrip upc) index with
      | ok fp =>
        rw [hr] at hp
        rcases List.mem_cons.mp hp with h | h
        · rw [h]
        · exact htail p h
      | error e =>
        rw [hr] at hp
        exact htail p hp

/-- The generated-files list is `success_items` projected to paths, and the
recorded indices are strictly increasing. -/
lemma batch_loop_success_spec (render : Render) (gen : UPCBarcodeGenerator) :
    ∀ (upc_list : List String) (index : Nat),
      (generate_batch_loop render gen upc_list index).1
        = (success_items render gen upc_list index).map Prod.snd ∧
      List.Chain' (fun a b => a.1 < b.1)
        (success_items render gen upc_list index)
  | [], _ => ⟨rfl, List.chain'_nil⟩
  | upc :: rest, index => by
    obtain ⟨ih1, ih2⟩ := batch_loop_success_spec render gen rest (index + 1)
    by_cases hb : pyStrip upc = ""
    · rw [generate_batch_loop, success_items, if_pos hb, if_pos hb]
      exact ⟨ih1, ih2⟩
    · rw [generate_batch_loop, success_items, if_neg hb, if_neg hb]
      cases hr : generate_barcode_with render gen (pyStrip upc) index with
      | ok fp =>
        refine ⟨by simp [ih1], ?_⟩
        rw [List.chain'_cons']
        refine ⟨?_, ih2⟩
        intro q hq
        have hq' : q ∈ success_items render gen rest (index + 1) :=
          List.mem_of_mem_head? hq
        have := success_items_index_ge render gen rest (index + 1) q hq'
        exact Nat.lt_of_succ_le this
      | error e =>
        exact ⟨by simp [ih1], ih2⟩

/-! ## Claims -/

/-- Claim C1: for every input string whose cleaned (digits-only) form has
exactly 12 digits, `generate_barcode` selects the UPC-A renderer; for
exactly 8 digits it selects the UPC-E renderer; for any other digit count
it does not render and fails instead. -/
theorem generate_barcode_classification (gen : UPCBarcodeGenerator)
    (upc : String) (index : Nat) :
    ((clean_upc upc).length = 12 →
      ∃ req, generate_barcode gen upc index = Except.ok req ∧
        req.barcode_class = BarcodeClass.upca) ∧
    ((clean_upc upc).length = 8 →
      ∃ req, generate_barcode gen upc index = Except.ok req ∧
        req.barcode_class = BarcodeClass.upce) ∧
    ((clean_upc upc).length ≠ 12 → (clean_upc upc).length ≠ 8 →
      ∃ e, generate_barcode gen upc index = Except.error e) := by
  refine ⟨?_, ?_, ?_⟩
  · intro h12
    exact ⟨{ barcode_class := BarcodeClass.upca, cleaned_upc := clean_upc upc,
             filename := format04d index ++ "_" ++ clean_upc upc,
             output_path :=
               gen.output_dir ++ "/" ++ (format04d index ++ "_" ++ clean_upc upc) },
           by simp [generate_barcode, h12], rfl⟩
  · intro h8
    exact ⟨{ barcode_class := BarcodeClass.upce, cleaned_upc := clean_upc upc,
             filename := format04d index ++ "_" ++ clean_upc upc,
             output_path :=
               gen.output_dir ++ "/" ++ (format04d index ++ "_" ++ clean_upc upc) },
           by simp [generate_barcode, h8], rfl⟩
  · intro h12 h8
    exact ⟨invalidLengthMsg (clean_upc upc).length,
           by simp [generate_barcode, h12, h8]⟩

/-- Witness for C1 at the inputs "123456789012", "12345678" and "1234567". -/
theorem generate_barcode_classification_witness :
    (∃ req, generate_barcode ⟨"barcodes"⟩ "123456789012" 1 = Except.ok req ∧
        req.barcode_class = BarcodeClass.upca) ∧
    (∃ req, generate_barcode ⟨"barcodes"⟩ "12345678" 2 = Except.ok req ∧
        req.barcode_class = BarcodeClass.upce) ∧
    (∃ e, generate_barcode ⟨"barcodes"⟩ "1234567" 3 = Except.error e) :=
  ⟨(generate_barcode_classification ⟨"barcodes"⟩ "123456789012" 1).1 rfl,
   (generate_barcode_classification ⟨"barcodes"⟩ "12345678" 2).2.1 rfl,
   (generate_barcode_classification ⟨"barcodes"⟩ "1234567" 3).2.2
     (by decide) (by decide)⟩

/-- Claim C2: a cleaned digit count other than 8 and 12 makes
`generate_barcode` fail with the invalid-length message carrying that exact
count, and the batch on the single line "1234567" yields exactly one error
mentioning "7" and an empty list of generated files. -/
theorem invalid_length_error_reports_count :
    (∀ (gen : UPCBarcodeGenerator) (upc : String) (index : Nat),
        (clean_upc upc).length ≠ 8 → (clean_upc upc).length ≠ 12 →
        generate_barcode gen upc index
          = Except.error (invalidLengthMsg (clean_upc upc).length) ∧
        (toString (clean_upc upc).length).toList <:+:
          (invalidLengthMsg (clean_upc upc).length).toList) ∧
    (∀ render : Render, ∀ gen : UPCBarcodeGenerator,
        generate_batch_run render gen ["1234567"]
          = ([], [batchErrorMsg "1234567" (invalidLengthMsg 7)]) ∧
        "7".toList <:+: (batchErrorMsg "1234567" (invalidLengthMsg 7)).toList) := by
  constructor
  · intro gen upc index h8 h12
    constructor
    · simp [generate_barcode, h8, h12]
    · exact ⟨"Invalid UPC length: ".toList,
             " digits. Must be 8 or 12 digits.".toList, by simp [invalidLengthMsg]⟩
  · intro render gen
    exact ⟨rfl, by decide⟩

/-- Witness for C2 at the input "1234567" (7 digits). -/
theorem invalid_length_error_reports_count_witness :
    generate_barcode ⟨"barcodes"⟩ "1234567" 1
      = Except.error (invalidLengthMsg (clean_upc "1234567").length) ∧
    generate_batch_run render_save_png ⟨"barcodes"⟩ ["1234567"]
      = ([], [batchErrorMsg "1234567" (invalidLengthMsg 7)]) :=
  ⟨(invalid_length_error_reports_count.1 ⟨"barcodes"⟩ "1234567" 1
      (by decide) (by decide)).1,
   (invalid_length_error_reports_count.2 render_save_png ⟨"barcodes"⟩).1⟩

/-- Claim C3: a successfully rendered item's filename is the 1-based item
index zero-padded to 4 digits, an underscore, then the cleaned digits, and
the batch ["123456789012", "", "12345678"] produces exactly the artifacts
`0001_123456789012.*` and `0003_12345678.*` (index = original position)
and zero errors. -/
theorem output_filename_index_and_digits :
    (∀ (gen : UPCBarcodeGenerator) (upc : String) (index : Nat)
        (req : RenderRequest),
        generate_barcode gen upc index = Except.ok req →
        req.filename = format04d index ++ "_" ++ clean_upc upc) ∧
    (∀ ext : String,
        generate_batch_run (fun req => Except.ok (req.output_path ++ ext))
          ⟨"barcodes"⟩ ["123456789012", "", "12345678"]
        = (["barcodes/0001_123456789012" ++ ext,
            "barcodes/0003_12345678" ++ ext], [])) := by
  constructor
  · intro gen upc index req h
    by_cases hm : (clean_upc upc).length ∈ ([8, 12] : List Nat)
    · simp [generate_barcode, hm] at h
      rw [← h]
    · simp [generate_barcode, hm] at h
  · intro ext
    rfl

/-- Witness for C3 at index 1 and input "123456789012". -/
theorem output_filename_index_and_digits_witness :
    ({ barcode_class := BarcodeClass.upca, cleaned_upc := "123456789012",
       filename := "0001_123456789012",
       output_path := "barcodes/0001_123456789012" } : RenderRequest).filename
      = format04d 1 ++ "_" ++ clean_upc "123456789012" :=
  output_filename_index_and_digits.1 ⟨"barcodes"⟩ "123456789012" 1 _ rfl

/-- Claim C4: blank or whitespace-only lines are skipped by
`generate_batch`: such a line contributes nothing to the success list and
nothing to the error list (the loop result is that of the remaining lines,
the line still consuming its index slot). -/
theorem blank_lines_skipped (render : Render) (gen : UPCBarcodeGenerator)
    (upc : String) (rest : List String) (index : Nat)
    (h : pyStrip upc = "") :
    generate_batch_loop render gen (upc :: rest) index
      = generate_batch_loop render gen rest (index + 1) := by
  simp [generate_batch_loop, h]

/-- Witness for C4 at the whitespace-only line "   ". -/
theorem blank_lines_skipped_witness :
    generate_batch_loop render_save_png ⟨"barcodes"⟩ ["   ", "12345678"] 1
      = generate_batch_loop render_save_png ⟨"barcodes"⟩ ["12345678"] 2 :=
  blank_lines_skipped render_save_png ⟨"barcodes"⟩ "   " ["12345678"] 1 rfl

/-- Claim C5: a failing item never aborts the batch: the rest of the list
is processed exactly as it would have been, the failure only appending its
error message; and if every item fails, `generate_batch` still returns
normally with the empty list of successes. -/
theorem batch_isolates_failures :
    (∀ (render : Render) (gen : UPCBarcodeGenerator) (upc : String)
        (rest : List String) (index : Nat) (e : String),
        pyStrip upc ≠ "" →
        generate_barcode_with render gen (pyStrip upc) index = Except.error e →
        generate_batch_loop render gen (upc :: rest) index
          = ((generate_batch_loop render gen rest (index + 1)).1,
             batchErrorMsg (pyStrip upc) e
               :: (generate_batch_loop render gen rest (index + 1)).2)) ∧
    (∀ (render : Render) (gen : UPCBarcodeGenerator) (upc_list : List String),
        (∀ upc ∈ upc_list, ∀ i : Nat, pyStrip upc ≠ "" →
            ∃ e, generate_barcode_with render gen (pyStrip upc) i
              = Except.error e) →
        generate_batch render gen upc_list = []) := by
  constructor
  · intro render gen upc rest index e hb he
    simp [generate_batch_loop, hb, he]
  · intro render gen upc_list h
    exact batch_loop_all_fail render gen upc_list 1 h

/-- Witness for C5: the invalid line "1234567" fails without disturbing the
processing of the rest, and a batch of only failing lines returns `[]`. -/
theorem batch_isolates_failures_witness :
    generate_batch_loop render_save_png ⟨"barcodes"⟩ ["1234567", "12345678"] 1
      = ((generate_batch_loop render_save_png ⟨"barcodes"⟩ ["12345678"] 2).1,
         batchErrorMsg (pyStrip "1234567") (invalidLengthMsg 7)
           :: (generate_batch_loop render_save_png ⟨"barcodes"⟩ ["12345678"] 2).2) ∧
    generate_batch render_save_png ⟨"barcodes"⟩ ["1234567"] = [] :=
  ⟨batch_isolates_failures.1 render_save_png ⟨"barcodes"⟩ "1234567" ["12345678"]
     1 (invalidLengthMsg 7) (by decide) rfl,
   batch_isolates_failures.2 render_save_png ⟨"barcodes"⟩ ["1234567"]
     (by
       intro upc hu i hb
       rcases List.mem_singleton.mp hu with rfl
       exact ⟨invalidLengthMsg 7, rfl⟩)⟩

/-- Claim C6: `clean_upc` is total and returns the input with every
non-digit character removed (a sublist of the input keeping exactly the
digit occurrences), with no error path; it may return the empty string. -/
theorem clean_upc_removes_nondigits :
    (∀ s : String,
        List.Sublist (clean_upc s).toList s.toList ∧
        (∀ c : Char, c.isDigit = true →
            (clean_upc s).toList.count c = s.toList.count c) ∧
        (∀ c : Char, c.isDigit = false →
            (clean_upc s).toList.count c = 0)) ∧
    clean_upc "no digits here!" = "" := by
  constructor
  · intro s
    refine ⟨List.filter_sublist _, ?_, ?_⟩
    · intro c hc
      simp [clean_upc, List.count_filter, hc]
    · intro c hc
      rw [List.count_eq_zero]
      intro hmem
      have hmem' : c ∈ s.toList.filter (fun x => x.isDigit) := hmem
      rw [List.mem_filter] at hmem'
      rw [hmem'.2] at hc
      exact Bool.true_eq_false.mp hc
  · decide

/-- Witness for C6 at the input "a1b2". -/
theorem clean_upc_removes_nondigits_witness :
    (clean_upc "a1b2").toList.count '1' = "a1b2".toList.count '1' ∧
    (clean_upc "a1b2").toList.count 'b' = 0 ∧
    List.Sublist (clean_upc "a1b2").toList "a1b2".toList :=
  ⟨(clean_upc_removes_nondigits.1 "a1b2").2.1 '1' (by decide),
   (clean_upc_removes_nondigits.1 "a1b2").2.2 'b' (by decide),
   (clean_upc_removes_nondigits.1 "a1b2").1⟩

/-- Claim C7: `clean_upc` is idempotent. -/
theorem clean_upc_idem (s : String) :
    clean_upc (clean_upc s) = clean_upc s :=
  clean_upc_filter_idem s

/-- Claim C8: `cli_mode` exits with a non-zero status, having processed
nothing, exactly when no input line was supplied; with any input it
completes normally with status 0. -/
theorem cli_exit_status (render : Render) (stdin_lines : List String) :
    ((cli_mode render stdin_lines).1 ≠ 0 ↔ stdin_lines = []) ∧
    (stdin_lines = [] → cli_mode render stdin_lines = (1, [])) ∧
    (stdin_lines ≠ [] → (cli_mode render stdin_lines).1 = 0) := by
  cases stdin_lines <;> simp [cli_mode]

/-- Witness for C8 at the empty and a one-line input. -/
theorem cli_exit_status_witness :
    cli_mode render_save_png [] = (1, []) ∧
    (cli_mode render_save_png ["12345678"]).1 = 0 :=
  ⟨(cli_exit_status render_save_png []).2.1 rfl,
   (cli_exit_status render_save_png ["12345678"]).2.2
     (List.cons_ne_nil "12345678" [])⟩

/-- Claim C9: `generate_barcode` cleans its own argument: it gives the same
result on `upc` and on `clean_upc upc`, and it fails exactly when the
cleaned digit count is neither 8 nor 12 — non-digit characters alone never
cause a failure. -/
theorem generate_barcode_cleans_argument (gen : UPCBarcodeGenerator)
    (upc : String) (index : Nat) :
    generate_barcode gen (clean_upc upc) index = generate_barcode gen upc index ∧
    ((∃ e, generate_barcode gen upc index = Except.error e) ↔
      ¬ ((clean_upc upc).length = 8 ∨ (clean_upc upc).length = 12)) := by
  constructor
  · unfold generate_barcode
    rw [clean_upc_filter_idem]
  · by_cases hm : (clean_upc upc).length = 8 ∨ (clean_upc upc).length = 12
    · simp only [hm, not_true, iff_false]
      rintro ⟨e, he⟩
      rcases hm with h8 | h12
      · simp [generate_barcode, h8] at he
      · simp [generate_barcode, h12] at he
    · simp only [hm, not_false_iff, iff_true]
      push_neg at hm
      exact ⟨invalidLengthMsg (clean_upc upc).length,
             by simp [generate_barcode, hm.1, hm.2]⟩

/-- Witness for C9 at the noisy input "12-34-5678" and the short "123". -/
theorem generate_barcode_cleans_argument_witness :
    generate_barcode ⟨"barcodes"⟩ (clean_upc "12-34-5678") 1
      = generate_barcode ⟨"barcodes"⟩ "12-34-5678" 1 ∧
    (∃ e, generate_barcode ⟨"barcodes"⟩ "123" 1 = Except.error e) :=
  ⟨(generate_barcode_cleans_argument ⟨"barcodes"⟩ "12-34-5678" 1).1,
   (generate_barcode_cleans_argument ⟨"barcodes"⟩ "123" 1).2.mpr (by decide)⟩

/-- Claim C10: the paths returned by `generate_batch` preserve input order:
they are the success paths in processing order, and the 1-based indices
baked into them (recorded by `success_items`) are strictly increasing. -/
theorem batch_preserves_input_order (render : Render)
    (gen : UPCBarcodeGenerator) (upc_list : List String) :
    generate_batch render gen upc_list
      = (success_items render gen upc_list 1).map Prod.snd ∧
    List.Chain' (fun a b => a.1 < b.1) (success_items render gen upc_list 1) :=
  ⟨(batch_loop_success_spec render gen upc_list 1).1,
   (batch_loop_success_spec render gen upc_list 1).2⟩

end BatchMe
